import Mathlib

/-!
Shallow embedding of the macro-mode VU0 (COP2) instruction recompiler of
pcsx2 (src/pcsx2/x86/microVU_Macro.inl).

The recompiler emits host x86 code; every claim here is about the run-time
behaviour of the emitted fragment.  Each translator function (recCFC2,
recCTC2, recQMFC2, recQMTC2, COP2_Interlock, endMacroOp, ...) is therefore
embedded as a function from the guest-visible machine state to the new state
together with the ordered trace of run-time events (external calls, register
reads/writes) the emitted fragment performs when it executes.

Machine integers are modelled as Nat with explicit reduction mod 2^32 where
the 32-bit x86 registers truncate.
-/

set_option maxRecDepth 8000

namespace MacroVU

/-- Reduction of a natural number to its low 32 bits (an x86 32-bit register). -/
def u32 (n : Nat) : Nat := n % 4294967296

/-- Wrap-around 32-bit subtraction, as computed by the x86 SUB instruction. -/
def sub32 (a b : Nat) : Nat := (u32 a + (4294967296 - u32 b)) % 4294967296

/-- Signed reinterpretation of a 32-bit value, for the signed CMP/JL pair the
recompiler emits when comparing the cycle backlog against 8. -/
def toSigned32 (n : Nat) : Int :=
  if u32 n < 2147483648 then (u32 n : Int) else (u32 n : Int) - 4294967296

/-- Modelled from the spec: the VU control-register index constants
(REG_STATUS_FLAG and friends) are declared in VU headers that are not under
src/; the values are the guest architecture's VI register numbering used
throughout microVU_Macro.inl (sign extension applies from index 16 up). -/
def REG_STATUS_FLAG : Nat := 16

/-- Mac-flag control register index (read-only for CTC2). -/
def REG_MAC_FLAG : Nat := 17

/-- Clip-flag control register index. -/
def REG_CLIP_FLAG : Nat := 18

/-- R register index (written with a masked 23-bit mantissa by CTC2). -/
def REG_R : Nat := 20

/-- Q register index (the pipelined Q register of the envelope). -/
def REG_Q : Nat := 22

/-- TPC control register index (read-only for CTC2). -/
def REG_TPC : Nat := 26

/-- FBRST control register index. -/
def REG_FBRST : Nat := 28

/-- VPU_STAT control register index; bit 0 is the VU0 busy flag. -/
def REG_VPU_STAT : Nat := 29

/-- CMSAR1 control register index (requests execution of a VU1 microprogram). -/
def REG_CMSAR1 : Nat := 31

/-- Modelled from the spec: the MIPS instruction-word field extractor macros
(_Rs_ and friends) come from CPU headers not under src/; they extract the
standard fixed bit-fields of the guest encoding (spec section 4.2). -/
def _Rs_ (code : Nat) : Nat := (code >>> 21) &&& 31

/-- Bits 20..16 of the guest instruction word (main-CPU register index). -/
def _Rt_ (code : Nat) : Nat := (code >>> 16) &&& 31

/-- Bits 15..11 of the guest instruction word (coprocessor register index). -/
def _Rd_ (code : Nat) : Nat := (code >>> 11) &&& 31

/-- Bits 5..0 of the guest instruction word (SPECIAL1 sub-opcode). -/
def _Funct_ (code : Nat) : Nat := code &&& 63

/-- Four 32-bit lanes of a 128-bit register (VF registers, 128-bit GPRs, and
the broadcast micro_statusflags / micro_macflags quadwords). -/
structure Vec4 where
  x : Nat
  y : Nat
  z : Nat
  w : Nat
deriving DecidableEq, Repr

/-- Replication of one 32-bit value into all four lanes (MOVD + SHUFPS 0). -/
def rep4 (v : Nat) : Vec4 := ⟨v, v, v, v⟩

/-- Pointwise update of an index-to-value map (a register-file write). -/
def upd {α : Type} (f : Nat → α) (i : Nat) (v : α) : Nat → α :=
  fun j => if j = i then v else f j

/-- Guest-visible machine state touched by the macro-mode recompiler's emitted
code: the main CPU cycle counter and GPR file, the VU0 cycle bookkeeping, the
VI and VF register files, the broadcast flag quadwords, and the two host
working registers (gprF0, xmmPQ) that carry values across an envelope. -/
structure VUState where
  cpuCycle : Nat
  vu0Cycle : Nat
  nextBlockCycles : Nat
  vi : Nat → Nat
  vf : Nat → Vec4
  gpr : Nat → Vec4
  microStatus : Vec4
  microMac : Vec4
  gprF0 : Nat
  xmmPQ : Nat

/-- Run-time events performed by an emitted code fragment, in program order. -/
inductive Ev where
  | updateCycles
  | execBlock
  | waitMicro
  | finishMicro
  | backlogCheck
  | readVI (i : Nat)
  | writeVI (i : Nat)
  | readGPR (i : Nat)
  | writeGPR (i : Nat)
  | readVF (i : Nat)
  | writeVF (i : Nat)
  | vu1FinishCall
  | vu1ExecCall
  | vu0ResetCall
  | vu1ResetCall
  | opBody (n : Nat)
deriving DecidableEq, Repr

/-- Synchronization events of the interlock protocol (cycle-counter update,
eager block execution, and the two wait/finish collaborator calls). -/
def syncEv : Ev → Bool
  | .updateCycles => true
  | .execBlock => true
  | .waitMicro => true
  | .finishMicro => true
  | _ => false

/-- Guest register-file access events (reads or writes of GPR/VI/VF). -/
def regEv : Ev → Bool
  | .readVI _ => true
  | .writeVI _ => true
  | .readGPR _ => true
  | .writeGPR _ => true
  | .readVF _ => true
  | .writeVF _ => true
  | _ => false

/-!
Opcode dispatch tables.  The C tables are flat arrays of function pointers
fully populated by their initializer lists; a table entry is embedded as an
Option String holding the handler's name, with none standing for a C null
pointer (a slot an initializer left to zero-fill).
-/

/-- Primary COP2 dispatch table (32 entries indexed by the Rs field),
transcribed from recCOP2t in microVU_Macro.inl. -/
def recCOP2t : List (Option String) := [
  some "rec_C2UNK", some "recQMFC2", some "recCFC2", some "rec_C2UNK",
  some "rec_C2UNK", some "recQMTC2", some "recCTC2", some "rec_C2UNK",
  some "recCOP2_BC2", some "rec_C2UNK", some "rec_C2UNK", some "rec_C2UNK",
  some "rec_C2UNK", some "rec_C2UNK", some "rec_C2UNK", some "rec_C2UNK",
  some "recCOP2_SPEC1", some "recCOP2_SPEC1", some "recCOP2_SPEC1", some "recCOP2_SPEC1",
  some "recCOP2_SPEC1", some "recCOP2_SPEC1", some "recCOP2_SPEC1", some "recCOP2_SPEC1",
  some "recCOP2_SPEC1", some "recCOP2_SPEC1", some "recCOP2_SPEC1", some "recCOP2_SPEC1",
  some "recCOP2_SPEC1", some "recCOP2_SPEC1", some "recCOP2_SPEC1", some "recCOP2_SPEC1"]

/-- Branch-condition dispatch table (32 entries indexed by the Rt field),
transcribed from recCOP2_BC2t. -/
def recCOP2_BC2t : List (Option String) := [
  some "recBC2F", some "recBC2T", some "recBC2FL", some "recBC2TL",
  some "rec_C2UNK", some "rec_C2UNK", some "rec_C2UNK", some "rec_C2UNK",
  some "rec_C2UNK", some "rec_C2UNK", some "rec_C2UNK", some "rec_C2UNK",
  some "rec_C2UNK", some "rec_C2UNK", some "rec_C2UNK", some "rec_C2UNK",
  some "rec_C2UNK", some "rec_C2UNK", some "rec_C2UNK", some "rec_C2UNK",
  some "rec_C2UNK", some "rec_C2UNK", some "rec_C2UNK", some "rec_C2UNK",
  some "rec_C2UNK", some "rec_C2UNK", some "rec_C2UNK", some "rec_C2UNK",
  some "rec_C2UNK", some "rec_C2UNK", some "rec_C2UNK", some "rec_C2UNK"]

/-- SPECIAL1 dispatch table (64 entries indexed by the Funct field),
transcribed from recCOP2SPECIAL1t. -/
def recCOP2SPECIAL1t : List (Option String) := [
  some "recVADDx", some "recVADDy", some "recVADDz", some "recVADDw",
  some "recVSUBx", some "recVSUBy", some "recVSUBz", some "recVSUBw",
  some "recVMADDx", some "recVMADDy", some "recVMADDz", some "recVMADDw",
  some "recVMSUBx", some "recVMSUBy", some "recVMSUBz", some "recVMSUBw",
  some "recVMAXx", some "recVMAXy", some "recVMAXz", some "recVMAXw",
  some "recVMINIx", some "recVMINIy", some "recVMINIz", some "recVMINIw",
  some "recVMULx", some "recVMULy", some "recVMULz", some "recVMULw",
  some "recVMULq", some "recVMAXi", some "recVMULi", some "recVMINIi",
  some "recVADDq", some "recVMADDq", some "recVADDi", some "recVMADDi",
  some "recVSUBq", some "recVMSUBq", some "recVSUBi", some "recVMSUBi",
  some "recVADD", some "recVMADD", some "recVMUL", some "recVMAX",
  some "recVSUB", some "recVMSUB", some "recVOPMSUB", some "recVMINI",
  some "recVIADD", some "recVISUB", some "recVIADDI", some "rec_C2UNK",
  some "recVIAND", some "recVIOR", some "rec_C2UNK", some "rec_C2UNK",
  some "recVCALLMS", some "recVCALLMSR", some "rec_C2UNK", some "rec_C2UNK",
  some "recCOP2_SPEC2", some "recCOP2_SPEC2", some "recCOP2_SPEC2", some "recCOP2_SPEC2"]

/-- SPECIAL2 dispatch table (128 entries indexed by the recombined 7-bit
sub-opcode), transcribed from recCOP2SPECIAL2t. -/
def recCOP2SPECIAL2t : List (Option String) := [
  some "recVADDAx", some "recVADDAy", some "recVADDAz", some "recVADDAw",
  some "recVSUBAx", some "recVSUBAy", some "recVSUBAz", some "recVSUBAw",
  some "recVMADDAx", some "recVMADDAy", some "recVMADDAz", some "recVMADDAw",
  some "recVMSUBAx", some "recVMSUBAy", some "recVMSUBAz", some "recVMSUBAw",
  some "recVITOF0", some "recVITOF4", some "recVITOF12", some "recVITOF15",
  some "recVFTOI0", some "recVFTOI4", some "recVFTOI12", some "recVFTOI15",
  some "recVMULAx", some "recVMULAy", some "recVMULAz", some "recVMULAw",
  some "recVMULAq", some "recVABS", some "recVMULAi", some "recVCLIP",
  some "recVADDAq", some "recVMADDAq", some "recVADDAi", some "recVMADDAi",
  some "recVSUBAq", some "recVMSUBAq", some "recVSUBAi", some "recVMSUBAi",
  some "recVADDA", some "recVMADDA", some "recVMULA", some "rec_C2UNK",
  some "recVSUBA", some "recVMSUBA", some "recVOPMULA", some "recVNOP",
  some "recVMOVE", some "recVMR32", some "rec_C2UNK", some "rec_C2UNK",
  some "recVLQI", some "recVSQI", some "recVLQD", some "recVSQD",
  some "recVDIV", some "recVSQRT", some "recVRSQRT", some "recVWAITQ",
  some "recVMTIR", some "recVMFIR", some "recVILWR", some "recVISWR",
  some "recVRNEXT", some "recVRGET", some "recVRINIT", some "recVRXOR",
  some "rec_C2UNK", some "rec_C2UNK", some "rec_C2UNK", some "rec_C2UNK",
  some "rec_C2UNK", some "rec_C2UNK", some "rec_C2UNK", some "rec_C2UNK",
  some "rec_C2UNK", some "rec_C2UNK", some "rec_C2UNK", some "rec_C2UNK",
  some "rec_C2UNK", some "rec_C2UNK", some "rec_C2UNK", some "rec_C2UNK",
  some "rec_C2UNK", some "rec_C2UNK", some "rec_C2UNK", some "rec_C2UNK",
  some "rec_C2UNK", some "rec_C2UNK", some "rec_C2UNK", some "rec_C2UNK",
  some "rec_C2UNK", some "rec_C2UNK", some "rec_C2UNK", some "rec_C2UNK",
  some "rec_C2UNK", some "rec_C2UNK", some "rec_C2UNK", some "rec_C2UNK",
  some "rec_C2UNK", some "rec_C2UNK", some "rec_C2UNK", some "rec_C2UNK",
  some "rec_C2UNK", some "rec_C2UNK", some "rec_C2UNK", some "rec_C2UNK",
  some "rec_C2UNK", some "rec_C2UNK", some "rec_C2UNK", some "rec_C2UNK",
  some "rec_C2UNK", some "rec_C2UNK", some "rec_C2UNK", some "rec_C2UNK",
  some "rec_C2UNK", some "rec_C2UNK", some "rec_C2UNK", some "rec_C2UNK",
  some "rec_C2UNK", some "rec_C2UNK", some "rec_C2UNK", some "rec_C2UNK",
  some "rec_C2UNK", some "rec_C2UNK", some "rec_C2UNK", some "rec_C2UNK"]

/-- Array indexing with C null-pointer semantics: an index past the
initialized entries yields none (a null handler). -/
def tableLookup (t : List (Option String)) (i : Nat) : Option String :=
  if h : i < t.length then t.get ⟨i, h⟩ else none

/-- Primary COP2 dispatch: recCOP2t indexed by the Rs field (source:
recCOP2 in the OpcodeImpl namespace). -/
def dispatchCOP2 (code : Nat) : Option String := tableLookup recCOP2t (_Rs_ code)

/-- Branch-condition dispatch: recCOP2_BC2t indexed by the Rt field
(source: recCOP2_BC2). -/
def dispatchBC2 (code : Nat) : Option String := tableLookup recCOP2_BC2t (_Rt_ code)

/-- SPECIAL1 dispatch: recCOP2SPECIAL1t indexed by the Funct field
(source: recCOP2_SPEC1). -/
def dispatchSPEC1 (code : Nat) : Option String :=
  tableLookup recCOP2SPECIAL1t (_Funct_ code)

/-- Recombined 7-bit SPECIAL2 index: (code AND 3) OR ((code SHR 4) AND 0x7c),
from recCOP2_SPEC2. -/
def spec2Index (code : Nat) : Nat := (code &&& 3) ||| ((code >>> 4) &&& 0x7c)

/-- SPECIAL2 dispatch: recCOP2SPECIAL2t indexed by the recombined sub-opcode. -/
def dispatchSPEC2 (code : Nat) : Option String :=
  tableLookup recCOP2SPECIAL2t (spec2Index code)

/-!
Flag conversion helpers.
-/

/-- Modelled from the spec: mVUallocSFLAGd (microVU allocator code, not under
src/) loads the denormalized status flags into eax.  The spec treats the
re-broadcast as replicating the committed scalar value into the vector-lane
form (spec sections 3 and 4.1), so the conversion is modelled as the identity
on the 32-bit value. -/
def mVUallocSFLAGd (status : Nat) : Nat := u32 status

/-- Modelled from the spec: mVUallocSFLAGc (microVU allocator code, not under
src/) normalizes the working flag value held in gprF0 back into the scalar
status representation; modelled as the identity on the 32-bit value for the
same reason as mVUallocSFLAGd. -/
def mVUallocSFLAGc (flags : Nat) : Nat := u32 flags

/-!
Per-instruction envelope: setupMacroOp / endMacroOp.  The translation-time
IRinfo bookkeeping has no guest-visible run-time effect and is not part of
the state; the run-time effect of the emitted loads/stores is embedded.
-/

/-- Run-time effect of the code emitted by setupMacroOp: load Q into the
working xmmPQ register when mode bit 0x01 is set, and snapshot the
denormalized status flags into gprF0 when mode bit 0x10 is set. -/
def setupMacroOp (mode : Nat) (s : VUState) : VUState :=
  let s1 := if mode &&& 0x01 ≠ 0 then { s with xmmPQ := u32 (s.vi REG_Q) } else s
  if mode &&& 0x10 ≠ 0 then
    { s1 with gprF0 := mVUallocSFLAGd (s1.vi REG_STATUS_FLAG) }
  else s1

/-- Run-time effect of the code emitted by endMacroOp: store the working Q
value back when mode bit 0x02 is set; when mode bit 0x10 is set, normalize
the working flag value into VI[REG_STATUS_FLAG], then (after the register
flush) denormalize the committed scalar and broadcast it into
micro_statusflags, and broadcast VI[REG_MAC_FLAG] into micro_macflags. -/
def endMacroOp (mode : Nat) (s : VUState) : VUState :=
  let s1 := if mode &&& 0x02 ≠ 0 then
      { s with vi := upd s.vi REG_Q (u32 s.xmmPQ) }
    else s
  let s2 := if mode &&& 0x10 ≠ 0 then
      { s1 with vi := upd s1.vi REG_STATUS_FLAG (mVUallocSFLAGc s1.gprF0) }
    else s1
  if mode &&& 0x10 ≠ 0 then
    { s2 with
        microStatus := rep4 (mVUallocSFLAGd (s2.vi REG_STATUS_FLAG)),
        microMac := rep4 (u32 (s2.vi REG_MAC_FLAG)) }
  else s2

/-- Call structure of the REC_COP2_mVU0 macro body: the slot-selector values
passed to the per-opcode translator mVU_f, in order.  When mode bit 0x04 is
set, the selector-0 call always happens and the selector-1 call happens only
when the analyzed lower-op is not a NOP (lOpIsNOP is the value of
microVU0.prog.IRinfo.info[0].lOp.isNOP after the first call); otherwise a
single selector-1 call is made. -/
def macroOpCalls (mode : Nat) (lOpIsNOP : Bool) : List Nat :=
  if mode &&& 0x04 ≠ 0 then 0 :: (if lOpIsNOP then [] else [1])
  else [1]

/-!
Interlock protocol and COP2 transfer instructions.  Each function maps the
pre-state to the post-state of the emitted fragment together with its
run-time event trace; blockCycles is the surrounding dynarec's elapsed-cycle
estimate for the current block (scaleblockcycles_clear), read-only here.
-/

/-- Run-time effect of the code emitted by COP2_Interlock: if VPU_STAT bit 0
is set (VU0 busy), add the block cycle estimate to cpuRegs.cycle, call
BaseVUmicroCPU ExecuteBlockJIT, then _vu0WaitMicro (mBitSync) or
_vu0FinishMicro (not mBitSync); if idle, do nothing. -/
def COP2_Interlock (mBitSync : Bool) (blockCycles : Nat) (s : VUState) :
    VUState × List Ev :=
  if s.vi REG_VPU_STAT &&& 1 = 0 then (s, [])
  else
    ({ s with cpuCycle := u32 (s.cpuCycle + blockCycles) },
     [.updateCycles, .execBlock, if mBitSync then .waitMicro else .finishMicro])

/-- Run-time effect of the opportunistic-synchronization code each transfer
handler emits on the interlock-bit-clear path: if VPU_STAT bit 0 is set, add
the block cycle estimate to cpuRegs.cycle, subtract vu0Regs.cycle (and, when
subNext, vu0Regs.nextBlockCycles — recQMTC2 omits that subtraction), and run
ExecuteBlockJIT exactly when the signed 32-bit backlog is at least 8; if
VPU_STAT bit 0 is clear the whole block is skipped. -/
def opportunisticSync (subNext : Bool) (blockCycles : Nat) (s : VUState) :
    VUState × List Ev :=
  if s.vi REG_VPU_STAT &&& 1 = 0 then (s, [])
  else
    let c := u32 (s.cpuCycle + blockCycles)
    let b1 := sub32 c s.vu0Cycle
    let backlog := if subNext then sub32 b1 s.nextBlockCycles else b1
    ({ s with cpuCycle := c },
     [.updateCycles, .backlogCheck] ++
       (if 8 ≤ toSigned32 backlog then [.execBlock] else []))

/-- Transfer body of recCFC2: load VI[rd] (the REG_STATUS_FLAG case performs
the same load), store it to GPR[rt] lane 0, and store the sign extension
(for rd at least 16) or zero into lane 1. -/
def cfc2Body (rd rt : Nat) (s : VUState) : VUState × List Ev :=
  let v := u32 (s.vi rd)
  let hi : Nat := if 16 ≤ rd then (if v < 2147483648 then 0 else 4294967295) else 0
  let g := s.gpr rt
  ({ s with gpr := upd s.gpr rt { g with x := v, y := hi } },
   [.readVI rd, .writeGPR rt])

/-- Transfer body of recCTC2: the switch on the targeted VI register.
REG_MAC_FLAG, REG_TPC and REG_VPU_STAT are read-only and emit nothing;
REG_R masks in a constant exponent; REG_STATUS_FLAG overwrites only bits
11..6 from the source GPR, keeps the low 6 sticky bits, and re-broadcasts
the committed scalar into micro_statusflags; REG_CMSAR1 finishes VU1 and
dispatches a new VU1 microprogram; REG_FBRST applies the reset tests and
masks; any other register receives the source GPR value directly. -/
def ctc2Body (rd rt : Nat) (s : VUState) : VUState × List Ev :=
  if rd = REG_MAC_FLAG ∨ rd = REG_TPC ∨ rd = REG_VPU_STAT then (s, [])
  else if rd = REG_R then
    ({ s with vi := upd s.vi REG_R ((u32 ((s.gpr rt).x) &&& 0x7FFFFF) ||| 0x3f800000) },
     [.readGPR rt, .writeVI REG_R])
  else if rd = REG_STATUS_FLAG then
    let newStatus := if rt ≠ 0 then
        (u32 (s.vi REG_STATUS_FLAG) &&& 0x3F) ||| (u32 ((s.gpr rt).x) &&& 0xFC0)
      else u32 (s.vi REG_STATUS_FLAG) &&& 0x3F
    ({ s with
        vi := upd s.vi REG_STATUS_FLAG newStatus,
        microStatus := rep4 (mVUallocSFLAGd newStatus) },
     (if rt ≠ 0 then [.readGPR rt] else []) ++ [.writeVI REG_STATUS_FLAG])
  else if rd = REG_CMSAR1 then
    (s, [.vu1FinishCall] ++ (if rt ≠ 0 then [.readGPR rt] else []) ++ [.vu1ExecCall])
  else if rd = REG_FBRST then
    if rt = 0 then ({ s with vi := upd s.vi REG_FBRST 0 }, [.writeVI REG_FBRST])
    else
      let v := u32 ((s.gpr rt).x)
      ({ s with vi := upd s.vi REG_FBRST (v &&& 0x0C0C) },
       [.readGPR rt] ++ (if v &&& 0x002 ≠ 0 then [.vu0ResetCall] else []) ++
         (if v &&& 0x200 ≠ 0 then [.vu1ResetCall] else []) ++ [.writeVI REG_FBRST])
  else if rd = 0 then (s, [])
  else ({ s with vi := upd s.vi rd (u32 ((s.gpr rt).x)) }, [.readGPR rt, .writeVI rd])

/-- Transfer body of recQMFC2: copy the 128-bit VF[rd] into GPR[rt]. -/
def qmfc2Body (rd rt : Nat) (s : VUState) : VUState × List Ev :=
  ({ s with gpr := upd s.gpr rt (s.vf rd) }, [.readVF rd, .writeGPR rt])

/-- Transfer body of recQMTC2: copy the 128-bit GPR[rt] into VF[rd]. -/
def qmtc2Body (rd rt : Nat) (s : VUState) : VUState × List Ev :=
  ({ s with vf := upd s.vf rd (s.gpr rt) }, [.readGPR rt, .writeVF rd])

/-- Run-time semantics of the fragment emitted by recCFC2: interlock
(mBitSync false) when bit 0 of the instruction word is set; nothing more if
rt is zero; otherwise the opportunistic check (bit 0 clear only) and then
the transfer body. -/
def recCFC2 (code blockCycles : Nat) (s : VUState) : VUState × List Ev :=
  let p1 := if code &&& 1 ≠ 0 then COP2_Interlock false blockCycles s else (s, [])
  if _Rt_ code = 0 then p1
  else
    let p2 := if code &&& 1 = 0 then opportunisticSync true blockCycles p1.1
      else (p1.1, [])
    let p3 := cfc2Body (_Rd_ code) (_Rt_ code) p2.1
    (p3.1, p1.2 ++ p2.2 ++ p3.2)

/-- Run-time semantics of the fragment emitted by recCTC2: interlock
(mBitSync true) when bit 0 is set; nothing more if rd is zero; otherwise the
opportunistic check (bit 0 clear only) and then the transfer body. -/
def recCTC2 (code blockCycles : Nat) (s : VUState) : VUState × List Ev :=
  let p1 := if code &&& 1 ≠ 0 then COP2_Interlock true blockCycles s else (s, [])
  if _Rd_ code = 0 then p1
  else
    let p2 := if code &&& 1 = 0 then opportunisticSync true blockCycles p1.1
      else (p1.1, [])
    let p3 := ctc2Body (_Rd_ code) (_Rt_ code) p2.1
    (p3.1, p1.2 ++ p2.2 ++ p3.2)

/-- Run-time semantics of the fragment emitted by recQMFC2: interlock
(mBitSync false) when bit 0 is set; nothing more if rt is zero; otherwise
the opportunistic check (bit 0 clear only) and then the transfer body. -/
def recQMFC2 (code blockCycles : Nat) (s : VUState) : VUState × List Ev :=
  let p1 := if code &&& 1 ≠ 0 then COP2_Interlock false blockCycles s else (s, [])
  if _Rt_ code = 0 then p1
  else
    let p2 := if code &&& 1 = 0 then opportunisticSync true blockCycles p1.1
      else (p1.1, [])
    let p3 := qmfc2Body (_Rd_ code) (_Rt_ code) p2.1
    (p3.1, p1.2 ++ p2.2 ++ p3.2)

/-- Run-time semantics of the fragment emitted by recQMTC2: interlock
(mBitSync true) when bit 0 is set; nothing more if rd is zero; otherwise the
opportunistic check — which in recQMTC2 does not subtract nextBlockCycles —
and then the transfer body. -/
def recQMTC2 (code blockCycles : Nat) (s : VUState) : VUState × List Ev :=
  let p1 := if code &&& 1 ≠ 0 then COP2_Interlock true blockCycles s else (s, [])
  if _Rd_ code = 0 then p1
  else
    let p2 := if code &&& 1 = 0 then opportunisticSync false blockCycles p1.1
      else (p1.1, [])
    let p3 := qmtc2Body (_Rd_ code) (_Rt_ code) p2.1
    (p3.1, p1.2 ++ p2.2 ++ p3.2)

/-- Run-time event trace of the fragment emitted by recCOP2_SPEC1: if
VPU_STAT bit 0 is set, call _vu0FinishMicro, then run the dispatched
opcode-specific body; if idle, run the body directly. -/
def recCOP2_SPEC1 (code : Nat) (s : VUState) : List Ev :=
  (if s.vi REG_VPU_STAT &&& 1 = 0 then [] else [.finishMicro]) ++
    [.opBody (_Funct_ code)]

/-- Concrete machine state for the closed counterexample and witness
theorems: cpuCycle zero, the given VPU_STAT value, VU0 cycle bookkeeping as
given, every other register zero. -/
def mkState (vpu vu0c nbc : Nat) : VUState := {
  cpuCycle := 0, vu0Cycle := vu0c, nextBlockCycles := nbc,
  vi := upd (fun _ => 0) REG_VPU_STAT vpu,
  vf := fun _ => rep4 0, gpr := fun _ => rep4 0,
  microStatus := rep4 0, microMac := rep4 0, gprF0 := 0, xmmPQ := 0 }

/-!
Theorems.
-/

theorem tableLookup_isSome (t : List (Option String)) (i : Nat)
    (h : i < t.length) (hall : ∀ x ∈ t, x.isSome = true) :
    (tableLookup t i).isSome = true := by
  unfold tableLookup
  rw [dif_pos h]
  exact hall _ (t.get_mem i h)

theorem and31_lt (x : Nat) : x &&& 31 < 32 :=
  Nat.lt_of_le_of_lt Nat.and_le_right (by norm_num)

theorem and63_lt (x : Nat) : x &&& 63 < 64 :=
  Nat.lt_of_le_of_lt Nat.and_le_right (by norm_num)

theorem spec2Index_lt (code : Nat) : spec2Index code < 128 := by
  have h1 : code &&& 3 < 2 ^ 7 := Nat.lt_of_le_of_lt Nat.and_le_right (by norm_num)
  have h2 : (code >>> 4) &&& 0x7c < 2 ^ 7 :=
    Nat.lt_of_le_of_lt Nat.and_le_right (by norm_num)
  have h3 := Nat.or_lt_two_pow h1 h2
  unfold spec2Index
  exact lt_of_lt_of_eq h3 (by norm_num)

/-- C4: every dispatch table of the recompiler — the 32-entry primary COP2
table, the 32-entry branch-condition table, the 64-entry SPECIAL1 table, and
the 128-entry SPECIAL2 table — is sized to the full width of its extracted
bit-field, and every index in that width maps to a non-null handler, so every
encodable guest instruction word has a defined translation. -/
theorem dispatchTablesTotal (code : Nat) :
    recCOP2t.length = 32 ∧ recCOP2_BC2t.length = 32 ∧
    recCOP2SPECIAL1t.length = 64 ∧ recCOP2SPECIAL2t.length = 128 ∧
    (dispatchCOP2 code).isSome = true ∧ (dispatchBC2 code).isSome = true ∧
    (dispatchSPEC1 code).isSome = true ∧ (dispatchSPEC2 code).isSome = true := by
  refine ⟨rfl, rfl, rfl, by decide, ?_, ?_, ?_, ?_⟩
  · exact tableLookup_isSome _ _ (by exact and31_lt _) (by decide)
  · exact tableLookup_isSome _ _ (by exact and31_lt _) (by decide)
  · exact tableLookup_isSome _ _ (by exact and63_lt _) (by decide)
  · refine tableLookup_isSome _ _ ?_ (by decide)
    rw [show recCOP2SPECIAL2t.length = 128 from by decide]
    exact spec2Index_lt code

/-!
Frame lemmas: the interlock and opportunistic-synchronization stages only
ever modify the main CPU cycle counter, and the transfer bodies never touch
it.
-/

theorem COP2_Interlock_frame (m : Bool) (bc : Nat) (s : VUState) :
    (COP2_Interlock m bc s).1 =
      { s with cpuCycle := (COP2_Interlock m bc s).1.cpuCycle } := by
  unfold COP2_Interlock
  split <;> rfl

theorem opportunisticSync_frame (b : Bool) (bc : Nat) (s : VUState) :
    (opportunisticSync b bc s).1 =
      { s with cpuCycle := (opportunisticSync b bc s).1.cpuCycle } := by
  unfold opportunisticSync
  split <;> rfl

theorem cfc2Body_noSync (rd rt : Nat) (s : VUState) :
    ∀ e ∈ (cfc2Body rd rt s).2, syncEv e = false := by
  intro e he
  unfold cfc2Body at he
  simp only [List.mem_cons, List.not_mem_nil, or_false] at he
  rcases he with h | h <;> subst h <;> rfl

theorem ctc2Body_noSync (rd rt : Nat) (s : VUState) :
    ∀ e ∈ (ctc2Body rd rt s).2, syncEv e = false := by
  intro e he
  cases e <;> try rfl
  all_goals
    unfold ctc2Body at he
    repeat' split at he
  all_goals simp_all

theorem qmfc2Body_noSync (rd rt : Nat) (s : VUState) :
    ∀ e ∈ (qmfc2Body rd rt s).2, syncEv e = false := by
  intro e he
  unfold qmfc2Body at he
  simp only [List.mem_cons, List.not_mem_nil, or_false] at he
  rcases he with h | h <;> subst h <;> rfl

theorem qmtc2Body_noSync (rd rt : Nat) (s : VUState) :
    ∀ e ∈ (qmtc2Body rd rt s).2, syncEv e = false := by
  intro e he
  unfold qmtc2Body at he
  simp only [List.mem_cons, List.not_mem_nil, or_false] at he
  rcases he with h | h <;> subst h <;> rfl

/-- C1: immediately after endMacroOp for a mode descriptor with
UPDATES_STATUS_MAC (mode bit 0x10) set, micro_statusflags is the exact
4-lane replication of VI[REG_STATUS_FLAG] and micro_macflags is the exact
4-lane replication of VI[REG_MAC_FLAG]. -/
theorem endMacroOpBroadcast (mode : Nat) (s : VUState)
    (h : mode &&& 0x10 ≠ 0) (hmac : s.vi REG_MAC_FLAG < 4294967296) :
    (endMacroOp mode s).microStatus =
      rep4 ((endMacroOp mode s).vi REG_STATUS_FLAG) ∧
    (endMacroOp mode s).microMac =
      rep4 ((endMacroOp mode s).vi REG_MAC_FLAG) := by
  have hmac17 : s.vi 17 < 4294967296 := hmac
  unfold endMacroOp
  rw [if_pos h, if_pos h]
  by_cases hq : mode &&& 0x02 ≠ 0
  · rw [if_pos hq]
    constructor <;>
      simp [upd, rep4, mVUallocSFLAGc, mVUallocSFLAGd, u32, REG_STATUS_FLAG,
        REG_MAC_FLAG, REG_Q, Vec4.mk.injEq] <;> omega
  · rw [if_neg hq]
    constructor <;>
      simp [upd, rep4, mVUallocSFLAGc, mVUallocSFLAGd, u32, REG_STATUS_FLAG,
        REG_MAC_FLAG, REG_Q, Vec4.mk.injEq] <;> omega

/-- Witness for C1 at mode 0x10 and a concrete zero state. -/
theorem endMacroOpBroadcast_w :
    (0x10 &&& 0x10 ≠ 0) ∧ ((mkState 0 0 0).vi REG_MAC_FLAG < 4294967296) ∧
    ((endMacroOp 0x10 (mkState 0 0 0)).microStatus =
        rep4 ((endMacroOp 0x10 (mkState 0 0 0)).vi REG_STATUS_FLAG) ∧
      (endMacroOp 0x10 (mkState 0 0 0)).microMac =
        rep4 ((endMacroOp 0x10 (mkState 0 0 0)).vi REG_MAC_FLAG)) :=
  ⟨by decide, by decide, endMacroOpBroadcast 0x10 (mkState 0 0 0) (by decide) (by decide)⟩

/-- C6: for a mode descriptor with DUAL_ISSUE (mode bit 0x04) set, the
slot-0 (upper-slot) translation call is made exactly once and the slot-1
(lower-slot) translation call is made exactly when the analyzed lower op is
not a NOP; with a no-op lower slot the slot-1 call never happens. -/
theorem dualIssueCalls (mode : Nat) (lOpIsNOP : Bool) (h : mode &&& 0x04 ≠ 0) :
    (macroOpCalls mode lOpIsNOP).count 0 = 1 ∧
    (1 ∈ macroOpCalls mode lOpIsNOP ↔ lOpIsNOP = false) := by
  unfold macroOpCalls
  rw [if_pos h]
  cases lOpIsNOP <;> decide

/-- Witness for C6 at mode 0x14 with a no-op lower slot: the upper-slot call
happens once and the lower-slot call does not happen. -/
theorem dualIssueCalls_w :
    (0x14 &&& 0x04 ≠ 0) ∧ ((macroOpCalls 0x14 true).count 0 = 1 ∧
      (1 ∈ macroOpCalls 0x14 true ↔ true = false)) :=
  ⟨by decide, dualIssueCalls 0x14 true (by decide)⟩

/-- C8: a SPECIAL1-dispatched opcode forces the in-flight VU0 microprogram
to completion (_vu0FinishMicro) before its opcode-specific body exactly when
VPU_STAT bit 0 is set at run time; when VU0 is idle no such call is made. -/
theorem spec1FinishBeforeBody (code : Nat) (s : VUState) :
    (s.vi REG_VPU_STAT &&& 1 ≠ 0 →
      recCOP2_SPEC1 code s = [.finishMicro, .opBody (_Funct_ code)]) ∧
    (s.vi REG_VPU_STAT &&& 1 = 0 →
      recCOP2_SPEC1 code s = [.opBody (_Funct_ code)]) := by
  constructor <;> intro h <;> unfold recCOP2_SPEC1
  · rw [if_neg h]
    rfl
  · rw [if_pos h]
    rfl

/-- Witness for C8: with VU0 busy the finish call precedes the body. -/
theorem spec1FinishBeforeBody_w :
    recCOP2_SPEC1 0 (mkState 1 0 0) = [.finishMicro, .opBody 0] :=
  (spec1FinishBeforeBody 0 (mkState 1 0 0)).1 (by decide)

/-- Counterexample to C3 as stated: recQMTC2 omits the nextBlockCycles
subtraction, so at cpuCycle 0, blockCycles 8, vu0Cycle 0, nextBlockCycles 5
(busy) it executes the pending block although the claimed backlog is 3; and
when VU0 is idle the pending block is not executed although the claimed
backlog is 100. -/
theorem opportunisticThreshold_cex :
    (Ev.execBlock ∈ (recQMTC2 2048 8 (mkState 1 0 5)).2 ∧
      toSigned32 (sub32 (sub32 (u32 ((mkState 1 0 5).cpuCycle + 8))
        (mkState 1 0 5).vu0Cycle) (mkState 1 0 5).nextBlockCycles) < 8) ∧
    (Ev.execBlock ∉ (recQMTC2 2048 100 (mkState 0 0 0)).2 ∧
      8 ≤ toSigned32 (sub32 (sub32 (u32 ((mkState 0 0 0).cpuCycle + 100))
        (mkState 0 0 0).vu0Cycle) (mkState 0 0 0).nextBlockCycles)) := by
  decide

/-- Counterexample to C5 as stated: with the interlock bit clear and VU0
idle, the backlog is never computed or compared — the emitted fragment is
just the transfer body. -/
theorem opportunisticOnlyWhenBusy_cex :
    (recCFC2 65536 10 (mkState 0 0 0)).2 = [.readVI 0, .writeGPR 1] ∧
    Ev.backlogCheck ∉ (recCFC2 65536 10 (mkState 0 0 0)).2 := by
  decide

theorem recCTC2_state (code bc : Nat) (s : VUState) (h0 : ¬ _Rd_ code = 0) :
    ∃ c, (recCTC2 code bc s).1 =
      (ctc2Body (_Rd_ code) (_Rt_ code) { s with cpuCycle := c }).1 := by
  simp only [recCTC2]
  rw [if_neg h0]
  by_cases hb : code &&& 1 = 0
  · rw [if_neg (not_not_intro hb), if_pos hb]
    exact ⟨(opportunisticSync true bc s).1.cpuCycle,
      congrArg (fun t => (ctc2Body (_Rd_ code) (_Rt_ code) t).1)
        (opportunisticSync_frame true bc s)⟩
  · rw [if_pos hb, if_neg hb]
    exact ⟨(COP2_Interlock true bc s).1.cpuCycle,
      congrArg (fun t => (ctc2Body (_Rd_ code) (_Rt_ code) t).1)
        (COP2_Interlock_frame true bc s)⟩

/-- C10: a CTC2 targeting one of the read-only control registers (the mac
flag, TPC or VPU_STAT) emits no write: the transfer body returns the state
unchanged with no events, and the whole translated sequence leaves the VI
and VF register files and both broadcast flag quadwords unchanged. -/
theorem ctc2ReadOnlyRegs (code bc rt : Nat) (s : VUState)
    (h : _Rd_ code = REG_MAC_FLAG ∨ _Rd_ code = REG_TPC ∨
      _Rd_ code = REG_VPU_STAT) :
    ctc2Body (_Rd_ code) rt s = (s, []) ∧
    (recCTC2 code bc s).1.vi = s.vi ∧ (recCTC2 code bc s).1.vf = s.vf ∧
    (recCTC2 code bc s).1.microStatus = s.microStatus ∧
    (recCTC2 code bc s).1.microMac = s.microMac := by
  have hbody : ∀ (rt' : Nat) (t : VUState), ctc2Body (_Rd_ code) rt' t = (t, []) := by
    intro rt' t
    unfold ctc2Body
    rw [if_pos h]
  have h0 : ¬ _Rd_ code = 0 := by
    rcases h with h | h | h <;> rw [h] <;> decide
  obtain ⟨c, hc⟩ := recCTC2_state code bc s h0
  rw [hbody] at hc
  exact ⟨hbody rt s, by rw [hc], by rw [hc], by rw [hc], by rw [hc]⟩

theorem ctc2Body_status (rt : Nat) (t : VUState)
    (hs : t.vi REG_STATUS_FLAG < 4294967296)
    (hg : (t.gpr rt).x < 4294967296) :
    ((ctc2Body REG_STATUS_FLAG rt t).1.vi REG_STATUS_FLAG =
        if rt ≠ 0 then
          (t.vi REG_STATUS_FLAG &&& 0x3F) ||| ((t.gpr rt).x &&& 0xFC0)
        else t.vi REG_STATUS_FLAG &&& 0x3F) ∧
    (ctc2Body REG_STATUS_FLAG rt t).1.microStatus =
      rep4 ((ctc2Body REG_STATUS_FLAG rt t).1.vi REG_STATUS_FLAG) := by
  unfold ctc2Body
  rw [if_neg (by decide), if_neg (by decide), if_pos rfl]
  by_cases hrt : rt = 0
  · simp only [hrt, ne_eq, not_true_eq_false, if_false, ite_false]
    constructor
    · simp [upd, u32, Nat.mod_eq_of_lt hs]
    · have hlt : u32 (t.vi REG_STATUS_FLAG) &&& 0x3F < 4294967296 :=
        Nat.lt_of_le_of_lt Nat.and_le_right (by norm_num)
      simp [upd, mVUallocSFLAGd, u32, Nat.mod_eq_of_lt, hlt]
      rw [Nat.mod_eq_of_lt]
      exact Nat.lt_of_le_of_lt Nat.and_le_right (by norm_num)
  · simp only [hrt, ne_eq, not_false_iff, if_true, ite_true]
    constructor
    · simp [upd, u32, Nat.mod_eq_of_lt hs, Nat.mod_eq_of_lt hg]
    · have h1 : u32 (t.vi REG_STATUS_FLAG) &&& 0x3F < 2 ^ 12 :=
        Nat.lt_of_le_of_lt Nat.and_le_right (by norm_num)
      have h2 : u32 ((t.gpr rt).x) &&& 0xFC0 < 2 ^ 12 :=
        Nat.lt_of_le_of_lt Nat.and_le_right (by norm_num)
      have h3 := Nat.or_lt_two_pow h1 h2
      simp [upd, mVUallocSFLAGd, u32]
      rw [Nat.mod_eq_of_lt]
      exact lt_trans h3 (by norm_num)

/-- C7: a CTC2 targeting the status-flag control register with a non-zero
source register sets the scalar to (old AND 0x3F) OR (sourceGPR AND 0xFC0),
keeping the low 6 sticky bits; with a zero source it sets old AND 0x3F; in
both cases micro_statusflags is re-derived as the 4-lane replication of the
new scalar value. -/
theorem ctc2StatusWrite (code bc : Nat) (s : VUState)
    (hrd : _Rd_ code = REG_STATUS_FLAG)
    (hs : s.vi REG_STATUS_FLAG < 4294967296)
    (hg : (s.gpr (_Rt_ code)).x < 4294967296) :
    (_Rt_ code ≠ 0 →
       (recCTC2 code bc s).1.vi REG_STATUS_FLAG =
         (s.vi REG_STATUS_FLAG &&& 0x3F) |||
           ((s.gpr (_Rt_ code)).x &&& 0xFC0)) ∧
    (_Rt_ code = 0 →
       (recCTC2 code bc s).1.vi REG_STATUS_FLAG =
         s.vi REG_STATUS_FLAG &&& 0x3F) ∧
    (recCTC2 code bc s).1.microStatus =
       rep4 ((recCTC2 code bc s).1.vi REG_STATUS_FLAG) := by
  have h0 : ¬ _Rd_ code = 0 := by rw [hrd]; decide
  obtain ⟨c, hc⟩ := recCTC2_state code bc s h0
  rw [hrd] at hc
  have hb := ctc2Body_status (_Rt_ code) { s with cpuCycle := c } hs hg
  refine ⟨?_, ?_, ?_⟩
  · intro hrt
    rw [hc, hb.1, if_pos hrt]
  · intro hrt
    rw [hc, hb.1, if_neg (not_not_intro hrt)]
  · rw [hc, hb.2]

/-- Witness for C7 at a concrete CTC2 word (rd = 16, rt = 1) and state. -/
theorem ctc2StatusWrite_w :
    (_Rd_ 98304 = REG_STATUS_FLAG) ∧
    ((mkState 1 0 0).vi REG_STATUS_FLAG < 4294967296) ∧
    (((mkState 1 0 0).gpr (_Rt_ 98304)).x < 4294967296) ∧
    ((_Rt_ 98304 ≠ 0 →
       (recCTC2 98304 3 (mkState 1 0 0)).1.vi REG_STATUS_FLAG =
         ((mkState 1 0 0).vi REG_STATUS_FLAG &&& 0x3F) |||
           (((mkState 1 0 0).gpr (_Rt_ 98304)).x &&& 0xFC0)) ∧
     (_Rt_ 98304 = 0 →
       (recCTC2 98304 3 (mkState 1 0 0)).1.vi REG_STATUS_FLAG =
         (mkState 1 0 0).vi REG_STATUS_FLAG &&& 0x3F) ∧
     (recCTC2 98304 3 (mkState 1 0 0)).1.microStatus =
       rep4 ((recCTC2 98304 3 (mkState 1 0 0)).1.vi REG_STATUS_FLAG)) :=
  ⟨by decide, by decide, by decide,
    ctc2StatusWrite 98304 3 (mkState 1 0 0) (by decide) (by decide) (by decide)⟩

/-- Witness for C10 at a concrete CTC2 word targeting REG_MAC_FLAG. -/
theorem ctc2ReadOnlyRegs_w :
    (_Rd_ 34816 = REG_MAC_FLAG ∨ _Rd_ 34816 = REG_TPC ∨
      _Rd_ 34816 = REG_VPU_STAT) ∧
    (ctc2Body (_Rd_ 34816) 0 (mkState 1 0 0) = (mkState 1 0 0, []) ∧
     (recCTC2 34816 5 (mkState 1 0 0)).1.vi = (mkState 1 0 0).vi ∧
     (recCTC2 34816 5 (mkState 1 0 0)).1.vf = (mkState 1 0 0).vf ∧
     (recCTC2 34816 5 (mkState 1 0 0)).1.microStatus = (mkState 1 0 0).microStatus ∧
     (recCTC2 34816 5 (mkState 1 0 0)).1.microMac = (mkState 1 0 0).microMac) :=
  ⟨by decide, ctc2ReadOnlyRegs 34816 5 0 (mkState 1 0 0) (by decide)⟩

/-!
Trace decomposition lemmas for the four transfer translators.
-/

theorem ctc2Body_cpuCycle (rd rt : Nat) (s : VUState) :
    (ctc2Body rd rt s).1.cpuCycle = s.cpuCycle := by
  unfold ctc2Body
  repeat' split
  all_goals rfl

theorem recCFC2_interlocked (code bc : Nat) (s : VUState)
    (hbit : code &&& 1 ≠ 0) :
    ∃ r, (recCFC2 code bc s).2 = (COP2_Interlock false bc s).2 ++ r ∧
      (∀ e ∈ r, syncEv e = false) ∧
      (recCFC2 code bc s).1.cpuCycle = (COP2_Interlock false bc s).1.cpuCycle := by
  simp only [recCFC2]
  by_cases hrt : _Rt_ code = 0
  · rw [if_pos hrt, if_pos hbit]
    exact ⟨[], by simp, by simp, rfl⟩
  · rw [if_neg hrt, if_pos hbit, if_neg hbit]
    exact ⟨(cfc2Body (_Rd_ code) (_Rt_ code) (COP2_Interlock false bc s).1).2,
      by simp, cfc2Body_noSync _ _ _, rfl⟩

theorem recQMFC2_interlocked (code bc : Nat) (s : VUState)
    (hbit : code &&& 1 ≠ 0) :
    ∃ r, (recQMFC2 code bc s).2 = (COP2_Interlock false bc s).2 ++ r ∧
      (∀ e ∈ r, syncEv e = false) ∧
      (recQMFC2 code bc s).1.cpuCycle = (COP2_Interlock false bc s).1.cpuCycle := by
  simp only [recQMFC2]
  by_cases hrt : _Rt_ code = 0
  · rw [if_pos hrt, if_pos hbit]
    exact ⟨[], by simp, by simp, rfl⟩
  · rw [if_neg hrt, if_pos hbit, if_neg hbit]
    exact ⟨(qmfc2Body (_Rd_ code) (_Rt_ code) (COP2_Interlock false bc s).1).2,
      by simp, qmfc2Body_noSync _ _ _, rfl⟩

theorem recCTC2_interlocked (code bc : Nat) (s : VUState)
    (hbit : code &&& 1 ≠ 0) :
    ∃ r, (recCTC2 code bc s).2 = (COP2_Interlock true bc s).2 ++ r ∧
      (∀ e ∈ r, syncEv e = false) ∧
      (recCTC2 code bc s).1.cpuCycle = (COP2_Interlock true bc s).1.cpuCycle := by
  simp only [recCTC2]
  by_cases hrd : _Rd_ code = 0
  · rw [if_pos hrd, if_pos hbit]
    exact ⟨[], by simp, by simp, rfl⟩
  · rw [if_neg hrd, if_pos hbit, if_neg hbit]
    exact ⟨(ctc2Body (_Rd_ code) (_Rt_ code) (COP2_Interlock true bc s).1).2,
      by simp, ctc2Body_noSync _ _ _, ctc2Body_cpuCycle _ _ _⟩

theorem recQMTC2_interlocked (code bc : Nat) (s : VUState)
    (hbit : code &&& 1 ≠ 0) :
    ∃ r, (recQMTC2 code bc s).2 = (COP2_Interlock true bc s).2 ++ r ∧
      (∀ e ∈ r, syncEv e = false) ∧
      (recQMTC2 code bc s).1.cpuCycle = (COP2_Interlock true bc s).1.cpuCycle := by
  simp only [recQMTC2]
  by_cases hrd : _Rd_ code = 0
  · rw [if_pos hrd, if_pos hbit]
    exact ⟨[], by simp, by simp, rfl⟩
  · rw [if_neg hrd, if_pos hbit, if_neg hbit]
    exact ⟨(qmtc2Body (_Rd_ code) (_Rt_ code) (COP2_Interlock true bc s).1).2,
      by simp, qmtc2Body_noSync _ _ _, rfl⟩

theorem recCFC2_bitclear (code bc : Nat) (s : VUState)
    (hbit : code &&& 1 = 0) (hrt : ¬ _Rt_ code = 0) :
    (recCFC2 code bc s).2 = (opportunisticSync true bc s).2 ++
      (cfc2Body (_Rd_ code) (_Rt_ code) (opportunisticSync true bc s).1).2 := by
  simp only [recCFC2]
  rw [if_neg hrt, if_neg (not_not_intro hbit), if_pos hbit]
  simp

theorem recCTC2_bitclear (code bc : Nat) (s : VUState)
    (hbit : code &&& 1 = 0) (hrd : ¬ _Rd_ code = 0) :
    (recCTC2 code bc s).2 = (opportunisticSync true bc s).2 ++
      (ctc2Body (_Rd_ code) (_Rt_ code) (opportunisticSync true bc s).1).2 := by
  simp only [recCTC2]
  rw [if_neg hrd, if_neg (not_not_intro hbit), if_pos hbit]
  simp

theorem recQMFC2_bitclear (code bc : Nat) (s : VUState)
    (hbit : code &&& 1 = 0) (hrt : ¬ _Rt_ code = 0) :
    (recQMFC2 code bc s).2 = (opportunisticSync true bc s).2 ++
      (qmfc2Body (_Rd_ code) (_Rt_ code) (opportunisticSync true bc s).1).2 := by
  simp only [recQMFC2]
  rw [if_neg hrt, if_neg (not_not_intro hbit), if_pos hbit]
  simp

theorem recQMTC2_bitclear (code bc : Nat) (s : VUState)
    (hbit : code &&& 1 = 0) (hrd : ¬ _Rd_ code = 0) :
    (recQMTC2 code bc s).2 = (opportunisticSync false bc s).2 ++
      (qmtc2Body (_Rd_ code) (_Rt_ code) (opportunisticSync false bc s).1).2 := by
  simp only [recQMTC2]
  rw [if_neg hrd, if_neg (not_not_intro hbit), if_pos hbit]
  simp

/-- C2: for every register transfer with the interlock bit (instruction-word
bit 0) set, when VPU_STAT bit 0 is set at run time the emitted sequence
first updates the main CPU cycle counter by the block estimate, then makes
the forced-completion call (_vu0FinishMicro for CFC2 and QMFC2, mBitSync
false) or the wait call (_vu0WaitMicro for CTC2 and QMTC2, mBitSync true),
and only afterwards performs the transfer body; when the busy bit is clear,
the cycle update and the wait/finish calls are all skipped. -/
theorem interlockedTransferOrder (code bc : Nat) (s : VUState)
    (hbit : code &&& 1 ≠ 0) :
    (s.vi REG_VPU_STAT &&& 1 ≠ 0 →
      (∃ r, (recCFC2 code bc s).2 =
          Ev.updateCycles :: Ev.execBlock :: Ev.finishMicro :: r ∧
          (∀ e ∈ r, syncEv e = false)) ∧
      (∃ r, (recQMFC2 code bc s).2 =
          Ev.updateCycles :: Ev.execBlock :: Ev.finishMicro :: r ∧
          (∀ e ∈ r, syncEv e = false)) ∧
      (∃ r, (recCTC2 code bc s).2 =
          Ev.updateCycles :: Ev.execBlock :: Ev.waitMicro :: r ∧
          (∀ e ∈ r, syncEv e = false)) ∧
      (∃ r, (recQMTC2 code bc s).2 =
          Ev.updateCycles :: Ev.execBlock :: Ev.waitMicro :: r ∧
          (∀ e ∈ r, syncEv e = false)) ∧
      (recCFC2 code bc s).1.cpuCycle = u32 (s.cpuCycle + bc) ∧
      (recQMFC2 code bc s).1.cpuCycle = u32 (s.cpuCycle + bc) ∧
      (recCTC2 code bc s).1.cpuCycle = u32 (s.cpuCycle + bc) ∧
      (recQMTC2 code bc s).1.cpuCycle = u32 (s.cpuCycle + bc)) ∧
    (s.vi REG_VPU_STAT &&& 1 = 0 →
      (∀ e ∈ (recCFC2 code bc s).2, syncEv e = false) ∧
      (∀ e ∈ (recQMFC2 code bc s).2, syncEv e = false) ∧
      (∀ e ∈ (recCTC2 code bc s).2, syncEv e = false) ∧
      (∀ e ∈ (recQMTC2 code bc s).2, syncEv e = false) ∧
      (recCFC2 code bc s).1.cpuCycle = s.cpuCycle ∧
      (recQMFC2 code bc s).1.cpuCycle = s.cpuCycle ∧
      (recCTC2 code bc s).1.cpuCycle = s.cpuCycle ∧
      (recQMTC2 code bc s).1.cpuCycle = s.cpuCycle) := by
  obtain ⟨r1, ht1, hn1, hc1⟩ := recCFC2_interlocked code bc s hbit
  obtain ⟨r2, ht2, hn2, hc2⟩ := recQMFC2_interlocked code bc s hbit
  obtain ⟨r3, ht3, hn3, hc3⟩ := recCTC2_interlocked code bc s hbit
  obtain ⟨r4, ht4, hn4, hc4⟩ := recQMTC2_interlocked code bc s hbit
  constructor
  · intro hbusy
    have hI : ∀ m : Bool, (COP2_Interlock m bc s).2 =
        [Ev.updateCycles, Ev.execBlock,
          if m then Ev.waitMicro else Ev.finishMicro] ∧
        (COP2_Interlock m bc s).1.cpuCycle = u32 (s.cpuCycle + bc) := by
      intro m
      unfold COP2_Interlock
      rw [if_neg hbusy]
      exact ⟨rfl, rfl⟩
    refine ⟨⟨r1, ?_, hn1⟩, ⟨r2, ?_, hn2⟩, ⟨r3, ?_, hn3⟩, ⟨r4, ?_, hn4⟩,
      ?_, ?_, ?_, ?_⟩
    · rw [ht1, (hI false).1]
      rfl
    · rw [ht2, (hI false).1]
      rfl
    · rw [ht3, (hI true).1]
      rfl
    · rw [ht4, (hI true).1]
      rfl
    · rw [hc1, (hI false).2]
    · rw [hc2, (hI false).2]
    · rw [hc3, (hI true).2]
    · rw [hc4, (hI true).2]
  · intro hidle
    have hI : ∀ m : Bool, COP2_Interlock m bc s = (s, []) := by
      intro m
      unfold COP2_Interlock
      rw [if_pos hidle]
    refine ⟨?_, ?_, ?_, ?_, ?_, ?_, ?_, ?_⟩
    · rw [ht1, (hI false)]
      simpa using hn1
    · rw [ht2, (hI false)]
      simpa using hn2
    · rw [ht3, (hI true)]
      simpa using hn3
    · rw [ht4, (hI true)]
      simpa using hn4
    · rw [hc1, (hI false)]
    · rw [hc2, (hI false)]
    · rw [hc3, (hI true)]
    · rw [hc4, (hI true)]

/-- Witness for C2 at code 1 (interlocked CFC2-shaped word with rt = 0) on a
busy state: the cycle update precedes the sync call in all four traces. -/
theorem interlockedTransferOrder_w :
    (∃ r, (recCFC2 1 7 (mkState 1 0 0)).2 =
        Ev.updateCycles :: Ev.execBlock :: Ev.finishMicro :: r ∧
        (∀ e ∈ r, syncEv e = false)) ∧
    (∃ r, (recQMFC2 1 7 (mkState 1 0 0)).2 =
        Ev.updateCycles :: Ev.execBlock :: Ev.finishMicro :: r ∧
        (∀ e ∈ r, syncEv e = false)) ∧
    (∃ r, (recCTC2 1 7 (mkState 1 0 0)).2 =
        Ev.updateCycles :: Ev.execBlock :: Ev.waitMicro :: r ∧
        (∀ e ∈ r, syncEv e = false)) ∧
    (∃ r, (recQMTC2 1 7 (mkState 1 0 0)).2 =
        Ev.updateCycles :: Ev.execBlock :: Ev.waitMicro :: r ∧
        (∀ e ∈ r, syncEv e = false)) ∧
    (recCFC2 1 7 (mkState 1 0 0)).1.cpuCycle = u32 ((mkState 1 0 0).cpuCycle + 7) ∧
    (recQMFC2 1 7 (mkState 1 0 0)).1.cpuCycle = u32 ((mkState 1 0 0).cpuCycle + 7) ∧
    (recCTC2 1 7 (mkState 1 0 0)).1.cpuCycle = u32 ((mkState 1 0 0).cpuCycle + 7) ∧
    (recQMTC2 1 7 (mkState 1 0 0)).1.cpuCycle = u32 ((mkState 1 0 0).cpuCycle + 7) :=
  (interlockedTransferOrder 1 7 (mkState 1 0 0) (by decide)).1 (by decide)

/-- C9: a transfer whose main-CPU-side register index is zero (rt = 0 for
CFC2/QMFC2) or whose coprocessor-side register index is zero (rd = 0 for
CTC2/QMTC2) emits no transfer body: with the interlock bit set the fragment
is exactly the interlock protocol, with it clear the fragment is empty, and
in either case no guest register is read or written and no opportunistic
backlog check is performed. -/
theorem zeroRegTransferNoBody (code bc : Nat) (s : VUState)
    (hrt : _Rt_ code = 0) (hrd : _Rd_ code = 0) :
    (code &&& 1 ≠ 0 →
      recCFC2 code bc s = COP2_Interlock false bc s ∧
      recQMFC2 code bc s = COP2_Interlock false bc s ∧
      recCTC2 code bc s = COP2_Interlock true bc s ∧
      recQMTC2 code bc s = COP2_Interlock true bc s) ∧
    (code &&& 1 = 0 →
      recCFC2 code bc s = (s, []) ∧ recQMFC2 code bc s = (s, []) ∧
      recCTC2 code bc s = (s, []) ∧ recQMTC2 code bc s = (s, [])) ∧
    (∀ e ∈ (recCFC2 code bc s).2, regEv e = false ∧ e ≠ Ev.backlogCheck) ∧
    (∀ e ∈ (recQMFC2 code bc s).2, regEv e = false ∧ e ≠ Ev.backlogCheck) ∧
    (∀ e ∈ (recCTC2 code bc s).2, regEv e = false ∧ e ≠ Ev.backlogCheck) ∧
    (∀ e ∈ (recQMTC2 code bc s).2, regEv e = false ∧ e ≠ Ev.backlogCheck) := by
  have hcfc : recCFC2 code bc s =
      (if code &&& 1 ≠ 0 then COP2_Interlock false bc s else (s, [])) := by
    simp only [recCFC2]
    rw [if_pos hrt]
  have hqmfc : recQMFC2 code bc s =
      (if code &&& 1 ≠ 0 then COP2_Interlock false bc s else (s, [])) := by
    simp only [recQMFC2]
    rw [if_pos hrt]
  have hctc : recCTC2 code bc s =
      (if code &&& 1 ≠ 0 then COP2_Interlock true bc s else (s, [])) := by
    simp only [recCTC2]
    rw [if_pos hrd]
  have hqmtc : recQMTC2 code bc s =
      (if code &&& 1 ≠ 0 then COP2_Interlock true bc s else (s, [])) := by
    simp only [recQMTC2]
    rw [if_pos hrd]
  have hev : ∀ (m : Bool), ∀ e ∈ (COP2_Interlock m bc s).2,
      regEv e = false ∧ e ≠ Ev.backlogCheck := by
    intro m e he
    unfold COP2_Interlock at he
    split at he
    · simp at he
    · cases m <;> simp at he <;>
        rcases he with h | h | h <;> subst h <;> exact ⟨rfl, by decide⟩
  have hall : ∀ X : VUState × List Ev,
      X = (if code &&& 1 ≠ 0 then COP2_Interlock false bc s else (s, [])) ∨
      X = (if code &&& 1 ≠ 0 then COP2_Interlock true bc s else (s, [])) →
      ∀ e ∈ X.2, regEv e = false ∧ e ≠ Ev.backlogCheck := by
    intro X hX e he
    rcases hX with h | h <;> subst h <;> by_cases hb : code &&& 1 ≠ 0
    · rw [if_pos hb] at he
      exact hev false e he
    · rw [if_neg hb] at he
      simp at he
    · rw [if_pos hb] at he
      exact hev true e he
    · rw [if_neg hb] at he
      simp at he
  refine ⟨?_, ?_, ?_, ?_, ?_, ?_⟩
  · intro hb
    rw [hcfc, hqmfc, hctc, hqmtc, if_pos hb, if_pos hb]
    exact ⟨rfl, rfl, rfl, rfl⟩
  · intro hb
    rw [hcfc, hqmfc, hctc, hqmtc, if_neg (not_not_intro hb),
      if_neg (not_not_intro hb)]
    exact ⟨rfl, rfl, rfl, rfl⟩
  · rw [hcfc]
    exact hall _ (Or.inl rfl)
  · rw [hqmfc]
    exact hall _ (Or.inl rfl)
  · rw [hctc]
    exact hall _ (Or.inr rfl)
  · rw [hqmtc]
    exact hall _ (Or.inr rfl)

/-- Witness for C9 at code 1 (interlock bit set, rt = rd = 0) on a busy
state. -/
theorem zeroRegTransferNoBody_w :
    (_Rt_ 1 = 0) ∧ (_Rd_ 1 = 0) ∧
    ((1 &&& 1 ≠ 0 →
        recCFC2 1 7 (mkState 1 0 0) = COP2_Interlock false 7 (mkState 1 0 0) ∧
        recQMFC2 1 7 (mkState 1 0 0) = COP2_Interlock false 7 (mkState 1 0 0) ∧
        recCTC2 1 7 (mkState 1 0 0) = COP2_Interlock true 7 (mkState 1 0 0) ∧
        recQMTC2 1 7 (mkState 1 0 0) = COP2_Interlock true 7 (mkState 1 0 0)) ∧
      (1 &&& 1 = 0 →
        recCFC2 1 7 (mkState 1 0 0) = (mkState 1 0 0, []) ∧
        recQMFC2 1 7 (mkState 1 0 0) = (mkState 1 0 0, []) ∧
        recCTC2 1 7 (mkState 1 0 0) = (mkState 1 0 0, []) ∧
        recQMTC2 1 7 (mkState 1 0 0) = (mkState 1 0 0, [])) ∧
      (∀ e ∈ (recCFC2 1 7 (mkState 1 0 0)).2,
        regEv e = false ∧ e ≠ Ev.backlogCheck) ∧
      (∀ e ∈ (recQMFC2 1 7 (mkState 1 0 0)).2,
        regEv e = false ∧ e ≠ Ev.backlogCheck) ∧
      (∀ e ∈ (recCTC2 1 7 (mkState 1 0 0)).2,
        regEv e = false ∧ e ≠ Ev.backlogCheck) ∧
      (∀ e ∈ (recQMTC2 1 7 (mkState 1 0 0)).2,
        regEv e = false ∧ e ≠ Ev.backlogCheck)) :=
  ⟨by decide, by decide,
    zeroRegTransferNoBody 1 7 (mkState 1 0 0) (by decide) (by decide)⟩

/-!
Helper lemmas for the opportunistic-synchronization threshold.
-/

theorem execBlock_mem_oS_next (bc : Nat) (s : VUState)
    (hbusy : ¬ s.vi REG_VPU_STAT &&& 1 = 0) :
    Ev.execBlock ∈ (opportunisticSync true bc s).2 ↔
      8 ≤ toSigned32 (sub32 (sub32 (u32 (s.cpuCycle + bc)) s.vu0Cycle)
        s.nextBlockCycles) := by
  unfold opportunisticSync
  rw [if_neg hbusy]
  simp only [ite_true, List.cons_append, List.nil_append, List.mem_cons]
  split <;> simp_all

theorem execBlock_mem_oS_nonext (bc : Nat) (s : VUState)
    (hbusy : ¬ s.vi REG_VPU_STAT &&& 1 = 0) :
    Ev.execBlock ∈ (opportunisticSync false bc s).2 ↔
      8 ≤ toSigned32 (sub32 (u32 (s.cpuCycle + bc)) s.vu0Cycle) := by
  unfold opportunisticSync
  rw [if_neg hbusy]
  simp only [ite_false, List.cons_append, List.nil_append, List.mem_cons]
  split <;> simp_all

theorem cfc2Body_noBacklog (rd rt : Nat) (s : VUState) :
    ∀ e ∈ (cfc2Body rd rt s).2, e ≠ Ev.backlogCheck := by
  intro e he
  unfold cfc2Body at he
  simp only [List.mem_cons, List.not_mem_nil, or_false] at he
  rcases he with h | h <;> subst h <;> simp

theorem qmfc2Body_noBacklog (rd rt : Nat) (s : VUState) :
    ∀ e ∈ (qmfc2Body rd rt s).2, e ≠ Ev.backlogCheck := by
  intro e he
  unfold qmfc2Body at he
  simp only [List.mem_cons, List.not_mem_nil, or_false] at he
  rcases he with h | h <;> subst h <;> simp

theorem qmtc2Body_noBacklog (rd rt : Nat) (s : VUState) :
    ∀ e ∈ (qmtc2Body rd rt s).2, e ≠ Ev.backlogCheck := by
  intro e he
  unfold qmtc2Body at he
  simp only [List.mem_cons, List.not_mem_nil, or_false] at he
  rcases he with h | h <;> subst h <;> simp

theorem ctc2Body_noBacklog (rd rt : Nat) (s : VUState) :
    ∀ e ∈ (ctc2Body rd rt s).2, e ≠ Ev.backlogCheck := by
  intro e he
  cases e <;> try simp
  all_goals
    unfold ctc2Body at he
    repeat' split at he
  all_goals simp_all

theorem execBlock_notMem_cfc2Body (rd rt : Nat) (s : VUState) :
    Ev.execBlock ∉ (cfc2Body rd rt s).2 := by
  intro hmem
  have h := cfc2Body_noSync rd rt s Ev.execBlock hmem
  simp [syncEv] at h

theorem execBlock_notMem_ctc2Body (rd rt : Nat) (s : VUState) :
    Ev.execBlock ∉ (ctc2Body rd rt s).2 := by
  intro hmem
  have h := ctc2Body_noSync rd rt s Ev.execBlock hmem
  simp [syncEv] at h

theorem execBlock_notMem_qmfc2Body (rd rt : Nat) (s : VUState) :
    Ev.execBlock ∉ (qmfc2Body rd rt s).2 := by
  intro hmem
  have h := qmfc2Body_noSync rd rt s Ev.execBlock hmem
  simp [syncEv] at h

theorem execBlock_notMem_qmtc2Body (rd rt : Nat) (s : VUState) :
    Ev.execBlock ∉ (qmtc2Body rd rt s).2 := by
  intro hmem
  have h := qmtc2Body_noSync rd rt s Ev.execBlock hmem
  simp [syncEv] at h

/-- C3 amended: for a register transfer with the interlock bit clear whose
body is emitted, when VU0 is busy (VPU_STAT bit 0 set) the pending block is
executed exactly when the signed 32-bit backlog is at least 8, the backlog
being (updatedCycle - vu0Cycle) - nextBlockCycles for CFC2, CTC2 and QMFC2
but (updatedCycle - vu0Cycle) for QMTC2, which omits the nextBlockCycles
subtraction; when VU0 is idle the pending block is never executed. -/
theorem opportunisticThreshold (code bc : Nat) (s : VUState)
    (hbit : code &&& 1 = 0) (hrt : ¬ _Rt_ code = 0) (hrd : ¬ _Rd_ code = 0) :
    (¬ s.vi REG_VPU_STAT &&& 1 = 0 →
      (Ev.execBlock ∈ (recCFC2 code bc s).2 ↔
        8 ≤ toSigned32 (sub32 (sub32 (u32 (s.cpuCycle + bc)) s.vu0Cycle)
          s.nextBlockCycles)) ∧
      (Ev.execBlock ∈ (recCTC2 code bc s).2 ↔
        8 ≤ toSigned32 (sub32 (sub32 (u32 (s.cpuCycle + bc)) s.vu0Cycle)
          s.nextBlockCycles)) ∧
      (Ev.execBlock ∈ (recQMFC2 code bc s).2 ↔
        8 ≤ toSigned32 (sub32 (sub32 (u32 (s.cpuCycle + bc)) s.vu0Cycle)
          s.nextBlockCycles)) ∧
      (Ev.execBlock ∈ (recQMTC2 code bc s).2 ↔
        8 ≤ toSigned32 (sub32 (u32 (s.cpuCycle + bc)) s.vu0Cycle))) ∧
    (s.vi REG_VPU_STAT &&& 1 = 0 →
      Ev.execBlock ∉ (recCFC2 code bc s).2 ∧
      Ev.execBlock ∉ (recCTC2 code bc s).2 ∧
      Ev.execBlock ∉ (recQMFC2 code bc s).2 ∧
      Ev.execBlock ∉ (recQMTC2 code bc s).2) := by
  have ht1 := recCFC2_bitclear code bc s hbit hrt
  have ht2 := recCTC2_bitclear code bc s hbit hrd
  have ht3 := recQMFC2_bitclear code bc s hbit hrt
  have ht4 := recQMTC2_bitclear code bc s hbit hrd
  constructor
  · intro hbusy
    refine ⟨?_, ?_, ?_, ?_⟩
    · rw [ht1]
      simp only [List.mem_append,
        execBlock_notMem_cfc2Body (_Rd_ code) (_Rt_ code) _, or_false]
      exact execBlock_mem_oS_next bc s hbusy
    · rw [ht2]
      simp only [List.mem_append,
        execBlock_notMem_ctc2Body (_Rd_ code) (_Rt_ code) _, or_false]
      exact execBlock_mem_oS_next bc s hbusy
    · rw [ht3]
      simp only [List.mem_append,
        execBlock_notMem_qmfc2Body (_Rd_ code) (_Rt_ code) _, or_false]
      exact execBlock_mem_oS_next bc s hbusy
    · rw [ht4]
      simp only [List.mem_append,
        execBlock_notMem_qmtc2Body (_Rd_ code) (_Rt_ code) _, or_false]
      exact execBlock_mem_oS_nonext bc s hbusy
  · intro hidle
    have hOid : ∀ b : Bool, opportunisticSync b bc s = (s, []) := by
      intro b
      unfold opportunisticSync
      rw [if_pos hidle]
    refine ⟨?_, ?_, ?_, ?_⟩
    · rw [ht1, hOid true]
      simpa using execBlock_notMem_cfc2Body (_Rd_ code) (_Rt_ code) s
    · rw [ht2, hOid true]
      simpa using execBlock_notMem_ctc2Body (_Rd_ code) (_Rt_ code) s
    · rw [ht3, hOid true]
      simpa using execBlock_notMem_qmfc2Body (_Rd_ code) (_Rt_ code) s
    · rw [ht4, hOid false]
      simpa using execBlock_notMem_qmtc2Body (_Rd_ code) (_Rt_ code) s

/-- Witness for the amended C3 at code 67584 (rt = 1, rd = 1, interlock bit
clear) on a busy state with nextBlockCycles 5 and block estimate 8: the
QMTC2 backlog reaches the threshold while the three-term backlog does not. -/
theorem opportunisticThreshold_w :
    (¬ (mkState 1 0 5).vi REG_VPU_STAT &&& 1 = 0) ∧
    ((Ev.execBlock ∈ (recCFC2 67584 8 (mkState 1 0 5)).2 ↔
        8 ≤ toSigned32 (sub32 (sub32 (u32 ((mkState 1 0 5).cpuCycle + 8))
          (mkState 1 0 5).vu0Cycle) (mkState 1 0 5).nextBlockCycles)) ∧
      (Ev.execBlock ∈ (recCTC2 67584 8 (mkState 1 0 5)).2 ↔
        8 ≤ toSigned32 (sub32 (sub32 (u32 ((mkState 1 0 5).cpuCycle + 8))
          (mkState 1 0 5).vu0Cycle) (mkState 1 0 5).nextBlockCycles)) ∧
      (Ev.execBlock ∈ (recQMFC2 67584 8 (mkState 1 0 5)).2 ↔
        8 ≤ toSigned32 (sub32 (sub32 (u32 ((mkState 1 0 5).cpuCycle + 8))
          (mkState 1 0 5).vu0Cycle) (mkState 1 0 5).nextBlockCycles)) ∧
      (Ev.execBlock ∈ (recQMTC2 67584 8 (mkState 1 0 5)).2 ↔
        8 ≤ toSigned32 (sub32 (u32 ((mkState 1 0 5).cpuCycle + 8))
          (mkState 1 0 5).vu0Cycle))) :=
  ⟨by decide,
    (opportunisticThreshold 67584 8 (mkState 1 0 5) (by decide) (by decide)
      (by decide)).1 (by decide)⟩

/-- C5 amended: for a register transfer with the interlock bit clear whose
body is emitted, the opportunistic synchronization check (cycle update and
backlog comparison) runs exactly when VU0 is busy (VPU_STAT bit 0 set),
before the transfer body; when VU0 is idle the check is skipped entirely and
the fragment is just the transfer body. -/
theorem opportunisticOnlyWhenBusy (code bc : Nat) (s : VUState)
    (hbit : code &&& 1 = 0) (hrt : ¬ _Rt_ code = 0) (hrd : ¬ _Rd_ code = 0) :
    (¬ s.vi REG_VPU_STAT &&& 1 = 0 →
      (∃ r, (recCFC2 code bc s).2 = Ev.updateCycles :: Ev.backlogCheck :: r) ∧
      (∃ r, (recCTC2 code bc s).2 = Ev.updateCycles :: Ev.backlogCheck :: r) ∧
      (∃ r, (recQMFC2 code bc s).2 = Ev.updateCycles :: Ev.backlogCheck :: r) ∧
      (∃ r, (recQMTC2 code bc s).2 = Ev.updateCycles :: Ev.backlogCheck :: r)) ∧
    (s.vi REG_VPU_STAT &&& 1 = 0 →
      (recCFC2 code bc s).2 = (cfc2Body (_Rd_ code) (_Rt_ code) s).2 ∧
      (recCTC2 code bc s).2 = (ctc2Body (_Rd_ code) (_Rt_ code) s).2 ∧
      (recQMFC2 code bc s).2 = (qmfc2Body (_Rd_ code) (_Rt_ code) s).2 ∧
      (recQMTC2 code bc s).2 = (qmtc2Body (_Rd_ code) (_Rt_ code) s).2 ∧
      Ev.backlogCheck ∉ (recCFC2 code bc s).2 ∧
      Ev.backlogCheck ∉ (recCTC2 code bc s).2 ∧
      Ev.backlogCheck ∉ (recQMFC2 code bc s).2 ∧
      Ev.backlogCheck ∉ (recQMTC2 code bc s).2) := by
  have ht1 := recCFC2_bitclear code bc s hbit hrt
  have ht2 := recCTC2_bitclear code bc s hbit hrd
  have ht3 := recQMFC2_bitclear code bc s hbit hrt
  have ht4 := recQMTC2_bitclear code bc s hbit hrd
  constructor
  · intro hbusy
    have hOb : ∀ b : Bool, (opportunisticSync b bc s).2 =
        Ev.updateCycles :: Ev.backlogCheck ::
          (if 8 ≤ toSigned32 (if b then
              sub32 (sub32 (u32 (s.cpuCycle + bc)) s.vu0Cycle) s.nextBlockCycles
            else sub32 (u32 (s.cpuCycle + bc)) s.vu0Cycle)
          then [Ev.execBlock] else []) := by
      intro b
      unfold opportunisticSync
      rw [if_neg hbusy]
      cases b <;> rfl
    refine ⟨?_, ?_, ?_, ?_⟩
    · rw [ht1, hOb true]
      exact ⟨_, rfl⟩
    · rw [ht2, hOb true]
      exact ⟨_, rfl⟩
    · rw [ht3, hOb true]
      exact ⟨_, rfl⟩
    · rw [ht4, hOb false]
      exact ⟨_, rfl⟩
  · intro hidle
    have hOid : ∀ b : Bool, opportunisticSync b bc s = (s, []) := by
      intro b
      unfold opportunisticSync
      rw [if_pos hidle]
    have he1 : (recCFC2 code bc s).2 = (cfc2Body (_Rd_ code) (_Rt_ code) s).2 := by
      rw [ht1, hOid true]
      simp
    have he2 : (recCTC2 code bc s).2 = (ctc2Body (_Rd_ code) (_Rt_ code) s).2 := by
      rw [ht2, hOid true]
      simp
    have he3 : (recQMFC2 code bc s).2 = (qmfc2Body (_Rd_ code) (_Rt_ code) s).2 := by
      rw [ht3, hOid true]
      simp
    have he4 : (recQMTC2 code bc s).2 = (qmtc2Body (_Rd_ code) (_Rt_ code) s).2 := by
      rw [ht4, hOid false]
      simp
    refine ⟨he1, he2, he3, he4, ?_, ?_, ?_, ?_⟩
    · rw [he1]
      intro hmem
      exact cfc2Body_noBacklog (_Rd_ code) (_Rt_ code) s Ev.backlogCheck hmem rfl
    · rw [he2]
      intro hmem
      exact ctc2Body_noBacklog (_Rd_ code) (_Rt_ code) s Ev.backlogCheck hmem rfl
    · rw [he3]
      intro hmem
      exact qmfc2Body_noBacklog (_Rd_ code) (_Rt_ code) s Ev.backlogCheck hmem rfl
    · rw [he4]
      intro hmem
      exact qmtc2Body_noBacklog (_Rd_ code) (_Rt_ code) s Ev.backlogCheck hmem rfl

/-- Witness for the amended C5 at code 67584 on a busy state: all four
fragments open with the cycle update and backlog check. -/
theorem opportunisticOnlyWhenBusy_w :
    (¬ (mkState 1 0 0).vi REG_VPU_STAT &&& 1 = 0) ∧
    ((∃ r, (recCFC2 67584 2 (mkState 1 0 0)).2 =
        Ev.updateCycles :: Ev.backlogCheck :: r) ∧
     (∃ r, (recCTC2 67584 2 (mkState 1 0 0)).2 =
        Ev.updateCycles :: Ev.backlogCheck :: r) ∧
     (∃ r, (recQMFC2 67584 2 (mkState 1 0 0)).2 =
        Ev.updateCycles :: Ev.backlogCheck :: r) ∧
     (∃ r, (recQMTC2 67584 2 (mkState 1 0 0)).2 =
        Ev.updateCycles :: Ev.backlogCheck :: r)) :=
  ⟨by decide,
    (opportunisticOnlyWhenBusy 67584 2 (mkState 1 0 0) (by decide) (by decide)
      (by decide)).1 (by decide)⟩

end MacroVU
